import Mathlib

/-!
# Verification of the GDG certificate generator core

A shallow embedding of `certificate_generator.py` (class `CertificateGenerator`):
hash minting (`generate_hash`), QR payload construction (`generate_qr_code`),
certificate composition (`generate_certificate`), PDF/PNG output and batch
orchestration (`batch_generate`).

Modelling conventions:
* Python strings are Lean `String`; bytes are `List Nat` (each < 256).
* `datetime.now()` is nondeterministic, so every function that reads the clock
  takes the captured `PyDateTime` value as an explicit parameter; a batch takes
  a clock stream `Nat → PyDateTime × PyDateTime` (two reads per attendee:
  one in `generate_hash`, one in `generate_qr_code`).
* PIL images are modelled as a tree of the constructors the code applies
  (base file, QR image, resize, text draw, paste); pixel rasterisation is not
  modelled because no claim depends on it, while dimensions and the arguments
  of every drawing call are modelled exactly.
* The filesystem is modelled as a trace of operations (`FSOp`).
* Library behaviour that the code merely invokes (whether `ImageFont.truetype`
  succeeds on a path, the native pixel size the `qrcode` library picks for a
  payload) is an environment parameter `Env`.
-/

set_option maxRecDepth 16384

/-- A value captured from Python `datetime.now()`: local calendar/clock fields. -/
structure PyDateTime where
  year : Nat
  month : Nat
  day : Nat
  hour : Nat
  minute : Nat
  second : Nat
  microsecond : Nat
deriving Repr, DecidableEq

/-- Zero-pad the decimal rendering of `n` to width `w` (Python `%02d` etc.). -/
def padZ (w n : Nat) : String :=
  let s := toString n
  ⟨List.replicate (w - s.length) '0' ++ s.data⟩

/-- Python `datetime.isoformat()`: `YYYY-MM-DDTHH:MM:SS[.ffffff]`, the
fractional part present exactly when `microsecond ≠ 0`. -/
def isoformat (t : PyDateTime) : String :=
  padZ 4 t.year ++ "-" ++ padZ 2 t.month ++ "-" ++ padZ 2 t.day ++ "T" ++
  padZ 2 t.hour ++ ":" ++ padZ 2 t.minute ++ ":" ++ padZ 2 t.second ++
  (if t.microsecond == 0 then "" else "." ++ padZ 6 t.microsecond)

/-- Python `datetime.strftime("%Y-%m-%d %H:%M:%S")`. -/
def strftimeYmdHMS (t : PyDateTime) : String :=
  padZ 4 t.year ++ "-" ++ padZ 2 t.month ++ "-" ++ padZ 2 t.day ++ " " ++
  padZ 2 t.hour ++ ":" ++ padZ 2 t.minute ++ ":" ++ padZ 2 t.second

/-! ## UTF-8 encoding (Python `str.encode()`) -/

/-- UTF-8 encoding of one code point, as byte values. -/
def utf8EncodeChar (c : Char) : List Nat :=
  let n := c.toNat
  if n < 0x80 then [n]
  else if n < 0x800 then
    [0xC0 ||| (n >>> 6), 0x80 ||| (n &&& 0x3F)]
  else if n < 0x10000 then
    [0xE0 ||| (n >>> 12), 0x80 ||| ((n >>> 6) &&& 0x3F), 0x80 ||| (n &&& 0x3F)]
  else
    [0xF0 ||| (n >>> 18), 0x80 ||| ((n >>> 12) &&& 0x3F),
     0x80 ||| ((n >>> 6) &&& 0x3F), 0x80 ||| (n &&& 0x3F)]

/-- UTF-8 encoding of a string, as byte values (Python `s.encode()`). -/
def utf8Encode (s : String) : List Nat :=
  (s.data.map utf8EncodeChar).flatten

/-! ## SHA-256 (`hashlib.sha256`), FIPS 180-4, over byte lists -/

/-- Truncate to a 32-bit word. -/
def w32 (n : Nat) : Nat := n % 4294967296

/-- Right rotation of a 32-bit word. -/
def rotr32 (x n : Nat) : Nat := w32 ((x >>> n) ||| (x <<< (32 - n)))

/-- The SHA-256 round constants, in chunks of twelve. -/
def sha256K : List Nat :=
  [0x428a2f98, 0x71374491, 0xb5c0fbcf, 0xe9b5dba5, 0x3956c25b, 0x59f111f1,
   0x923f82a4, 0xab1c5ed5, 0xd807aa98, 0x12835b01, 0x243185be, 0x550c7dc3] ++
  [0x72be5d74, 0x80deb1fe, 0x9bdc06a7, 0xc19bf174, 0xe49b69c1, 0xefbe4786,
   0x0fc19dc6, 0x240ca1cc, 0x2de92c6f, 0x4a7484aa, 0x5cb0a9dc, 0x76f988da] ++
  [0x983e5152, 0xa831c66d, 0xb00327c8, 0xbf597fc7, 0xc6e00bf3, 0xd5a79147,
   0x06ca6351, 0x14292967, 0x27b70a85, 0x2e1b2138, 0x4d2c6dfc, 0x53380d13] ++
  [0x650a7354, 0x766a0abb, 0x81c2c92e, 0x92722c85, 0xa2bfe8a1, 0xa81a664b,
   0xc24b8b70, 0xc76c51a3, 0xd192e819, 0xd6990624, 0xf40e3585, 0x106aa070] ++
  [0x19a4c116, 0x1e376c08, 0x2748774c, 0x34b0bcb5, 0x391c0cb3, 0x4ed8aa4a,
   0x5b9cca4f, 0x682e6ff3, 0x748f82ee, 0x78a5636f, 0x84c87814, 0x8cc70208] ++
  [0x90befffa, 0xa4506ceb, 0xbef9a3f7, 0xc67178f2]

/-- The eight 32-bit words of a SHA-256 chaining state. -/
structure Hash8 where
  h0 : Nat
  h1 : Nat
  h2 : Nat
  h3 : Nat
  h4 : Nat
  h5 : Nat
  h6 : Nat
  h7 : Nat
deriving Repr, DecidableEq

/-- SHA-256 initial hash value. -/
def sha256Init : Hash8 :=
  ⟨0x6a09e667, 0xbb67ae85, 0x3c6ef372, 0xa54ff53a,
   0x510e527f, 0x9b05688c, 0x1f83d9ab, 0x5be0cd19⟩

/-- SHA-256 message padding: append `0x80`, zero bytes to 56 mod 64, then the
bit length as 8 big-endian bytes. -/
def sha256Pad (msg : List Nat) : List Nat :=
  let L := msg.length
  let z := (120 - ((L + 1) % 64)) % 64
  msg ++ [0x80] ++ List.replicate z 0 ++
    (List.range 8).map (fun i => (8 * L) >>> (8 * (7 - i)) % 256)

/-- Split a byte list into 64-byte blocks. -/
def toBlocks (l : List Nat) : List (List Nat) :=
  match l with
  | [] => []
  | c :: rest => (c :: rest).take 64 :: toBlocks ((c :: rest).drop 64)
termination_by l.length
decreasing_by simp [List.length_drop]; omega

/-- Group bytes into big-endian 32-bit words. -/
def bytesToWords : List Nat → List Nat
  | b0 :: b1 :: b2 :: b3 :: rest =>
    (((b0 * 256 + b1) * 256 + b2) * 256 + b3) :: bytesToWords rest
  | _ => []

/-- One step of the SHA-256 message schedule extension. -/
def schedExt (ws : List Nat) : List Nat :=
  let len := ws.length
  let v15 := ws.getD (len - 15) 0
  let v2 := ws.getD (len - 2) 0
  let v16 := ws.getD (len - 16) 0
  let v7 := ws.getD (len - 7) 0
  let s0 := (rotr32 v15 7) ^^^ (rotr32 v15 18) ^^^ (v15 >>> 3)
  let s1 := (rotr32 v2 17) ^^^ (rotr32 v2 19) ^^^ (v2 >>> 10)
  ws ++ [w32 (v16 + s0 + v7 + s1)]

/-- The full 64-word SHA-256 message schedule of a block. -/
def sha256Schedule (w16 : List Nat) : List Nat :=
  (List.range 48).foldl (fun acc _ => schedExt acc) w16

/-- One SHA-256 compression round. -/
def compressRound (st : Hash8) (kw : Nat × Nat) : Hash8 :=
  let S1 := rotr32 st.h4 6 ^^^ rotr32 st.h4 11 ^^^ rotr32 st.h4 25
  let ch := (st.h4 &&& st.h5) ^^^ ((st.h4 ^^^ 0xFFFFFFFF) &&& st.h6)
  let temp1 := w32 (st.h7 + S1 + ch + kw.2 + kw.1)
  let S0 := rotr32 st.h0 2 ^^^ rotr32 st.h0 13 ^^^ rotr32 st.h0 22
  let mj := (st.h0 &&& st.h1) ^^^ (st.h0 &&& st.h2) ^^^ (st.h1 &&& st.h2)
  let temp2 := w32 (S0 + mj)
  ⟨w32 (temp1 + temp2), st.h0, st.h1, st.h2, w32 (st.h3 + temp1), st.h4, st.h5, st.h6⟩

/-- Process one 64-byte block into the chaining state. -/
def processBlock (st : Hash8) (block : List Nat) : Hash8 :=
  let ws := sha256Schedule (bytesToWords block)
  let r := (ws.zip sha256K).foldl compressRound st
  ⟨w32 (st.h0 + r.h0), w32 (st.h1 + r.h1), w32 (st.h2 + r.h2), w32 (st.h3 + r.h3),
   w32 (st.h4 + r.h4), w32 (st.h5 + r.h5), w32 (st.h6 + r.h6), w32 (st.h7 + r.h7)⟩

/-- SHA-256 of a byte list, as the final chaining state. -/
def sha256Digest (msg : List Nat) : Hash8 :=
  (toBlocks (sha256Pad msg)).foldl processBlock sha256Init

/-- Lowercase hex digit for a nibble. -/
def hexDigit (n : Nat) : Char :=
  if n < 10 then Char.ofNat (48 + n) else Char.ofNat (87 + n)

/-- Big-endian lowercase hex rendering of a 32-bit word, 8 digits. -/
def toHex8 (w : Nat) : List Char :=
  (List.range 8).map (fun i => hexDigit (w >>> (4 * (7 - i)) % 16))

/-- The eight digest words in order. -/
def digestWords (st : Hash8) : List Nat :=
  [st.h0, st.h1, st.h2, st.h3, st.h4, st.h5, st.h6, st.h7]

/-- `hashlib.sha256(msg).hexdigest()`: 64 lowercase hex characters. -/
def sha256hex (msg : List Nat) : String :=
  ⟨((digestWords (sha256Digest msg)).map toHex8).flatten⟩

/-! ## `CertificateGenerator.generate_hash` -/

/-- The string interpolated by `generate_hash`:
`data = f"{attendee_name}{self.event_name}{timestamp}"`. -/
def hashData (event_name attendee_name : String) (now : PyDateTime) : String :=
  attendee_name ++ event_name ++ isoformat now

/-- `generate_hash(self, attendee_name)`, with the `datetime.now()` capture as
the explicit `now` parameter:
`hashlib.sha256(data.encode()).hexdigest()`. -/
def generate_hash (event_name attendee_name : String) (now : PyDateTime) : String :=
  sha256hex (utf8Encode (hashData event_name attendee_name now))

/-! ## JSON serialization (Python `json.dumps` with default options)

`json.dumps` on a `dict` of string values, with the defaults the code uses:
`ensure_ascii=True` (characters outside printable ASCII become `\uXXXX`
escapes, astral code points become surrogate pairs), item separator `", "`,
key separator `": "`, keys in insertion order. -/

/-- Lowercase 4-digit hex rendering of `n < 0x10000`. -/
def hex4 (n : Nat) : List Char :=
  [hexDigit (n >>> 12 % 16), hexDigit (n >>> 8 % 16),
   hexDigit (n >>> 4 % 16), hexDigit (n % 16)]

/-- `json.dumps` escaping of one character (`ensure_ascii=True`). -/
def escChar (c : Char) : List Char :=
  if c = '"' then ['\\', '"']
  else if c = '\\' then ['\\', '\\']
  else if c = '\n' then ['\\', 'n']
  else if c = '\r' then ['\\', 'r']
  else if c = '\t' then ['\\', 't']
  else if c.toNat = 8 then ['\\', 'b']
  else if c.toNat = 12 then ['\\', 'f']
  else if 0x20 ≤ c.toNat ∧ c.toNat ≤ 0x7E then [c]
  else if c.toNat < 0x10000 then '\\' :: 'u' :: hex4 c.toNat
  else
    let v := c.toNat - 0x10000
    ('\\' :: 'u' :: hex4 (0xD800 + v / 0x400)) ++ ('\\' :: 'u' :: hex4 (0xDC00 + v % 0x400))

/-- `json.dumps` escaping of a character list. -/
def escList (l : List Char) : List Char :=
  (l.map escChar).flatten

/-- `json.dumps` escaping of a string (without the surrounding quotes). -/
def jsonEsc (s : String) : String :=
  ⟨escList s.data⟩

/-- The `verification_data` record built in `generate_qr_code`: a dict with
exactly the keys `hash`, `name`, `event`, `date`, in that insertion order. -/
structure VerificationData where
  hash : String
  name : String
  event : String
  date : String
deriving Repr, DecidableEq

/-- `json.dumps(verification_data)` for the four-field dict, Python defaults:
`{"hash": H, "name": N, "event": E, "date": D}` with escaped string values. -/
def dumpsPayload (v : VerificationData) : String :=
  "\x7b\"hash\": \"" ++ jsonEsc v.hash ++ "\", \"name\": \"" ++ jsonEsc v.name ++
  "\", \"event\": \"" ++ jsonEsc v.event ++ "\", \"date\": \"" ++ jsonEsc v.date ++ "\"\x7d"

/-! ## JSON payload decoder

An executable decoder for the payload shape `dumpsPayload` emits, used to
state that the QR payload decodes back to the structured record. -/

/-- Decode one short escape letter (after a backslash). -/
def unescShort (e : Char) : Option Char :=
  if e = '"' then some '"'
  else if e = '\\' then some '\\'
  else if e = '/' then some '/'
  else if e = 'b' then some (Char.ofNat 8)
  else if e = 'f' then some (Char.ofNat 12)
  else if e = 'n' then some '\n'
  else if e = 'r' then some '\r'
  else if e = 't' then some '\t'
  else none

/-- Value of one hex digit character. -/
def hexVal (c : Char) : Option Nat :=
  if '0' ≤ c ∧ c ≤ '9' then some (c.toNat - 48)
  else if 'a' ≤ c ∧ c ≤ 'f' then some (c.toNat - 87)
  else if 'A' ≤ c ∧ c ≤ 'F' then some (c.toNat - 55)
  else none

/-- Value of four hex digit characters, big-endian. -/
def hexVal4 (a b c d : Char) : Option Nat :=
  match hexVal a, hexVal b, hexVal c, hexVal d with
  | some x, some y, some z, some w => some (((x * 16 + y) * 16 + z) * 16 + w)
  | _, _, _, _ => none

/-- Decode a JSON-escaped character sequence up to and including the closing
unescaped quote; returns the decoded characters and the remaining input.
`fuel` bounds the number of decoded characters (one unit per decoded character
plus one for the closing quote). -/
def unesc : Nat → List Char → Option (List Char × List Char)
  | 0, _ => none
  | _ + 1, [] => none
  | fuel + 1, c :: rest =>
    if c = '"' then some ([], rest)
    else if c = '\\' then
      match rest with
      | [] => none
      | e :: rest2 =>
        if e = 'u' then
          match rest2 with
          | a :: b :: c2 :: d :: rest3 =>
            match hexVal4 a b c2 d with
            | none => none
            | some n =>
              if 0xD800 ≤ n ∧ n < 0xDC00 then
                match rest3 with
                | '\\' :: 'u' :: a2 :: b2 :: c3 :: d2 :: rest4 =>
                  match hexVal4 a2 b2 c3 d2 with
                  | none => none
                  | some m =>
                    if 0xDC00 ≤ m ∧ m < 0xE000 then
                      match unesc fuel rest4 with
                      | none => none
                      | some (l, r) =>
                        some (Char.ofNat (0x10000 + (n - 0xD800) * 0x400 + (m - 0xDC00)) :: l, r)
                    else none
                | _ => none
              else
                match unesc fuel rest3 with
                | none => none
                | some (l, r) => some (Char.ofNat n :: l, r)
          | _ => none
        else
          match unescShort e with
          | none => none
          | some c2 =>
            match unesc fuel rest2 with
            | none => none
            | some (l, r) => some (c2 :: l, r)
    else
      match unesc fuel rest with
      | none => none
      | some (l, r) => some (c :: l, r)

/-- Consume an expected literal character sequence. -/
def expectLit : List Char → List Char → Option (List Char)
  | [], rest => some rest
  | _ :: _, [] => none
  | c :: cs, d :: rest => if c = d then expectLit cs rest else none

/-- Parse the serialized payload back into the structured record: the inverse
reading of the `dumpsPayload` format. -/
def parsePayload (s : String) : Option VerificationData :=
  match expectLit "\x7b\"hash\": \"".data s.data with
  | none => none
  | some r0 =>
    match unesc r0.length r0 with
    | none => none
    | some (h, r1) =>
      match expectLit ", \"name\": \"".data r1 with
      | none => none
      | some r2 =>
        match unesc r2.length r2 with
        | none => none
        | some (n, r3) =>
          match expectLit ", \"event\": \"".data r3 with
          | none => none
          | some r4 =>
            match unesc r4.length r4 with
            | none => none
            | some (e, r5) =>
              match expectLit ", \"date\": \"".data r5 with
              | none => none
              | some r6 =>
                match unesc r6.length r6 with
                | none => none
                | some (d, r7) =>
                  match r7 with
                  | ['\x7d'] => some ⟨⟨h⟩, ⟨n⟩, ⟨e⟩, ⟨d⟩⟩
                  | _ => none

/-! ## Filename sanitization and path joining (`batch_generate`, `os.path.join`) -/

/-- The contiguous code-point ranges (inclusive) on which Python `str.isalnum`
is true, generated from CPython 3.11's Unicode database: every Unicode letter
and numeric character, from ASCII through Latin-1 (including superscripts and
fractions such as `²` and `½`), Greek, Cyrillic, Arabic, CJK, up to the
supplementary planes. -/
def alnumRanges : List (Nat × Nat) :=
  [(0x30, 0x39), (0x41, 0x5A), (0x61, 0x7A), (0xAA, 0xAA),
   (0xB2, 0xB3), (0xB5, 0xB5), (0xB9, 0xBA), (0xBC, 0xBE),
   (0xC0, 0xD6), (0xD8, 0xF6), (0xF8, 0x2C1), (0x2C6, 0x2D1),
   (0x2E0, 0x2E4), (0x2EC, 0x2EC), (0x2EE, 0x2EE), (0x370, 0x374),
   (0x376, 0x377), (0x37A, 0x37D), (0x37F, 0x37F), (0x386, 0x386),
   (0x388, 0x38A), (0x38C, 0x38C), (0x38E, 0x3A1), (0x3A3, 0x3F5),
   (0x3F7, 0x481), (0x48A, 0x52F), (0x531, 0x556), (0x559, 0x559),
   (0x560, 0x588), (0x5D0, 0x5EA), (0x5EF, 0x5F2), (0x620, 0x64A),
   (0x660, 0x669), (0x66E, 0x66F), (0x671, 0x6D3), (0x6D5, 0x6D5),
   (0x6E5, 0x6E6), (0x6EE, 0x6FC), (0x6FF, 0x6FF), (0x710, 0x710),
   (0x712, 0x72F), (0x74D, 0x7A5), (0x7B1, 0x7B1), (0x7C0, 0x7EA),
   (0x7F4, 0x7F5), (0x7FA, 0x7FA), (0x800, 0x815), (0x81A, 0x81A),
   (0x824, 0x824), (0x828, 0x828), (0x840, 0x858), (0x860, 0x86A),
   (0x870, 0x887), (0x889, 0x88E), (0x8A0, 0x8C9), (0x904, 0x939),
   (0x93D, 0x93D), (0x950, 0x950), (0x958, 0x961), (0x966, 0x96F),
   (0x971, 0x980), (0x985, 0x98C), (0x98F, 0x990), (0x993, 0x9A8),
   (0x9AA, 0x9B0), (0x9B2, 0x9B2), (0x9B6, 0x9B9), (0x9BD, 0x9BD),
   (0x9CE, 0x9CE), (0x9DC, 0x9DD), (0x9DF, 0x9E1), (0x9E6, 0x9F1),
   (0x9F4, 0x9F9), (0x9FC, 0x9FC), (0xA05, 0xA0A), (0xA0F, 0xA10),
   (0xA13, 0xA28), (0xA2A, 0xA30), (0xA32, 0xA33), (0xA35, 0xA36),
   (0xA38, 0xA39), (0xA59, 0xA5C), (0xA5E, 0xA5E), (0xA66, 0xA6F),
   (0xA72, 0xA74), (0xA85, 0xA8D), (0xA8F, 0xA91), (0xA93, 0xAA8),
   (0xAAA, 0xAB0), (0xAB2, 0xAB3), (0xAB5, 0xAB9), (0xABD, 0xABD),
   (0xAD0, 0xAD0), (0xAE0, 0xAE1), (0xAE6, 0xAEF), (0xAF9, 0xAF9),
   (0xB05, 0xB0C), (0xB0F, 0xB10), (0xB13, 0xB28), (0xB2A, 0xB30),
   (0xB32, 0xB33), (0xB35, 0xB39), (0xB3D, 0xB3D), (0xB5C, 0xB5D),
   (0xB5F, 0xB61), (0xB66, 0xB6F), (0xB71, 0xB77), (0xB83, 0xB83),
   (0xB85, 0xB8A), (0xB8E, 0xB90), (0xB92, 0xB95), (0xB99, 0xB9A),
   (0xB9C, 0xB9C), (0xB9E, 0xB9F), (0xBA3, 0xBA4), (0xBA8, 0xBAA),
   (0xBAE, 0xBB9), (0xBD0, 0xBD0), (0xBE6, 0xBF2), (0xC05, 0xC0C),
   (0xC0E, 0xC10), (0xC12, 0xC28), (0xC2A, 0xC39), (0xC3D, 0xC3D),
   (0xC58, 0xC5A), (0xC5D, 0xC5D), (0xC60, 0xC61), (0xC66, 0xC6F),
   (0xC78, 0xC7E), (0xC80, 0xC80), (0xC85, 0xC8C), (0xC8E, 0xC90),
   (0xC92, 0xCA8), (0xCAA, 0xCB3), (0xCB5, 0xCB9), (0xCBD, 0xCBD),
   (0xCDD, 0xCDE), (0xCE0, 0xCE1), (0xCE6, 0xCEF), (0xCF1, 0xCF2),
   (0xD04, 0xD0C), (0xD0E, 0xD10), (0xD12, 0xD3A), (0xD3D, 0xD3D),
   (0xD4E, 0xD4E), (0xD54, 0xD56), (0xD58, 0xD61), (0xD66, 0xD78),
   (0xD7A, 0xD7F), (0xD85, 0xD96), (0xD9A, 0xDB1), (0xDB3, 0xDBB),
   (0xDBD, 0xDBD), (0xDC0, 0xDC6), (0xDE6, 0xDEF), (0xE01, 0xE30),
   (0xE32, 0xE33), (0xE40, 0xE46), (0xE50, 0xE59), (0xE81, 0xE82),
   (0xE84, 0xE84), (0xE86, 0xE8A), (0xE8C, 0xEA3), (0xEA5, 0xEA5),
   (0xEA7, 0xEB0), (0xEB2, 0xEB3), (0xEBD, 0xEBD), (0xEC0, 0xEC4),
   (0xEC6, 0xEC6), (0xED0, 0xED9), (0xEDC, 0xEDF), (0xF00, 0xF00),
   (0xF20, 0xF33), (0xF40, 0xF47), (0xF49, 0xF6C), (0xF88, 0xF8C),
   (0x1000, 0x102A), (0x103F, 0x1049), (0x1050, 0x1055), (0x105A, 0x105D),
   (0x1061, 0x1061), (0x1065, 0x1066), (0x106E, 0x1070), (0x1075, 0x1081),
   (0x108E, 0x108E), (0x1090, 0x1099), (0x10A0, 0x10C5), (0x10C7, 0x10C7),
   (0x10CD, 0x10CD), (0x10D0, 0x10FA), (0x10FC, 0x1248), (0x124A, 0x124D),
   (0x1250, 0x1256), (0x1258, 0x1258), (0x125A, 0x125D), (0x1260, 0x1288),
   (0x128A, 0x128D), (0x1290, 0x12B0), (0x12B2, 0x12B5), (0x12B8, 0x12BE),
   (0x12C0, 0x12C0), (0x12C2, 0x12C5), (0x12C8, 0x12D6), (0x12D8, 0x1310),
   (0x1312, 0x1315), (0x1318, 0x135A), (0x1369, 0x137C), (0x1380, 0x138F),
   (0x13A0, 0x13F5), (0x13F8, 0x13FD), (0x1401, 0x166C), (0x166F, 0x167F),
   (0x1681, 0x169A), (0x16A0, 0x16EA), (0x16EE, 0x16F8), (0x1700, 0x1711),
   (0x171F, 0x1731), (0x1740, 0x1751), (0x1760, 0x176C), (0x176E, 0x1770),
   (0x1780, 0x17B3), (0x17D7, 0x17D7), (0x17DC, 0x17DC), (0x17E0, 0x17E9),
   (0x17F0, 0x17F9), (0x1810, 0x1819), (0x1820, 0x1878), (0x1880, 0x1884),
   (0x1887, 0x18A8), (0x18AA, 0x18AA), (0x18B0, 0x18F5), (0x1900, 0x191E),
   (0x1946, 0x196D), (0x1970, 0x1974), (0x1980, 0x19AB), (0x19B0, 0x19C9),
   (0x19D0, 0x19DA), (0x1A00, 0x1A16), (0x1A20, 0x1A54), (0x1A80, 0x1A89),
   (0x1A90, 0x1A99), (0x1AA7, 0x1AA7), (0x1B05, 0x1B33), (0x1B45, 0x1B4C),
   (0x1B50, 0x1B59), (0x1B83, 0x1BA0), (0x1BAE, 0x1BE5), (0x1C00, 0x1C23),
   (0x1C40, 0x1C49), (0x1C4D, 0x1C7D), (0x1C80, 0x1C88), (0x1C90, 0x1CBA),
   (0x1CBD, 0x1CBF), (0x1CE9, 0x1CEC), (0x1CEE, 0x1CF3), (0x1CF5, 0x1CF6),
   (0x1CFA, 0x1CFA), (0x1D00, 0x1DBF), (0x1E00, 0x1F15), (0x1F18, 0x1F1D),
   (0x1F20, 0x1F45), (0x1F48, 0x1F4D), (0x1F50, 0x1F57), (0x1F59, 0x1F59),
   (0x1F5B, 0x1F5B), (0x1F5D, 0x1F5D), (0x1F5F, 0x1F7D), (0x1F80, 0x1FB4),
   (0x1FB6, 0x1FBC), (0x1FBE, 0x1FBE), (0x1FC2, 0x1FC4), (0x1FC6, 0x1FCC),
   (0x1FD0, 0x1FD3), (0x1FD6, 0x1FDB), (0x1FE0, 0x1FEC), (0x1FF2, 0x1FF4),
   (0x1FF6, 0x1FFC), (0x2070, 0x2071), (0x2074, 0x2079), (0x207F, 0x2089),
   (0x2090, 0x209C), (0x2102, 0x2102), (0x2107, 0x2107), (0x210A, 0x2113),
   (0x2115, 0x2115), (0x2119, 0x211D), (0x2124, 0x2124), (0x2126, 0x2126),
   (0x2128, 0x2128), (0x212A, 0x212D), (0x212F, 0x2139), (0x213C, 0x213F),
   (0x2145, 0x2149), (0x214E, 0x214E), (0x2150, 0x2189), (0x2460, 0x249B),
   (0x24EA, 0x24FF), (0x2776, 0x2793), (0x2C00, 0x2CE4), (0x2CEB, 0x2CEE),
   (0x2CF2, 0x2CF3), (0x2CFD, 0x2CFD), (0x2D00, 0x2D25), (0x2D27, 0x2D27),
   (0x2D2D, 0x2D2D), (0x2D30, 0x2D67), (0x2D6F, 0x2D6F), (0x2D80, 0x2D96),
   (0x2DA0, 0x2DA6), (0x2DA8, 0x2DAE), (0x2DB0, 0x2DB6), (0x2DB8, 0x2DBE),
   (0x2DC0, 0x2DC6), (0x2DC8, 0x2DCE), (0x2DD0, 0x2DD6), (0x2DD8, 0x2DDE),
   (0x2E2F, 0x2E2F), (0x3005, 0x3007), (0x3021, 0x3029), (0x3031, 0x3035),
   (0x3038, 0x303C), (0x3041, 0x3096), (0x309D, 0x309F), (0x30A1, 0x30FA),
   (0x30FC, 0x30FF), (0x3105, 0x312F), (0x3131, 0x318E), (0x3192, 0x3195),
   (0x31A0, 0x31BF), (0x31F0, 0x31FF), (0x3220, 0x3229), (0x3248, 0x324F),
   (0x3251, 0x325F), (0x3280, 0x3289), (0x32B1, 0x32BF), (0x3400, 0x4DBF),
   (0x4E00, 0xA48C), (0xA4D0, 0xA4FD), (0xA500, 0xA60C), (0xA610, 0xA62B),
   (0xA640, 0xA66E), (0xA67F, 0xA69D), (0xA6A0, 0xA6EF), (0xA717, 0xA71F),
   (0xA722, 0xA788), (0xA78B, 0xA7CA), (0xA7D0, 0xA7D1), (0xA7D3, 0xA7D3),
   (0xA7D5, 0xA7D9), (0xA7F2, 0xA801), (0xA803, 0xA805), (0xA807, 0xA80A),
   (0xA80C, 0xA822), (0xA830, 0xA835), (0xA840, 0xA873), (0xA882, 0xA8B3),
   (0xA8D0, 0xA8D9), (0xA8F2, 0xA8F7), (0xA8FB, 0xA8FB), (0xA8FD, 0xA8FE),
   (0xA900, 0xA925), (0xA930, 0xA946), (0xA960, 0xA97C), (0xA984, 0xA9B2),
   (0xA9CF, 0xA9D9), (0xA9E0, 0xA9E4), (0xA9E6, 0xA9FE), (0xAA00, 0xAA28),
   (0xAA40, 0xAA42), (0xAA44, 0xAA4B), (0xAA50, 0xAA59), (0xAA60, 0xAA76),
   (0xAA7A, 0xAA7A), (0xAA7E, 0xAAAF), (0xAAB1, 0xAAB1), (0xAAB5, 0xAAB6),
   (0xAAB9, 0xAABD), (0xAAC0, 0xAAC0), (0xAAC2, 0xAAC2), (0xAADB, 0xAADD),
   (0xAAE0, 0xAAEA), (0xAAF2, 0xAAF4), (0xAB01, 0xAB06), (0xAB09, 0xAB0E),
   (0xAB11, 0xAB16), (0xAB20, 0xAB26), (0xAB28, 0xAB2E), (0xAB30, 0xAB5A),
   (0xAB5C, 0xAB69), (0xAB70, 0xABE2), (0xABF0, 0xABF9), (0xAC00, 0xD7A3),
   (0xD7B0, 0xD7C6), (0xD7CB, 0xD7FB), (0xF900, 0xFA6D), (0xFA70, 0xFAD9),
   (0xFB00, 0xFB06), (0xFB13, 0xFB17), (0xFB1D, 0xFB1D), (0xFB1F, 0xFB28),
   (0xFB2A, 0xFB36), (0xFB38, 0xFB3C), (0xFB3E, 0xFB3E), (0xFB40, 0xFB41),
   (0xFB43, 0xFB44), (0xFB46, 0xFBB1), (0xFBD3, 0xFD3D), (0xFD50, 0xFD8F),
   (0xFD92, 0xFDC7), (0xFDF0, 0xFDFB), (0xFE70, 0xFE74), (0xFE76, 0xFEFC),
   (0xFF10, 0xFF19), (0xFF21, 0xFF3A), (0xFF41, 0xFF5A), (0xFF66, 0xFFBE),
   (0xFFC2, 0xFFC7), (0xFFCA, 0xFFCF), (0xFFD2, 0xFFD7), (0xFFDA, 0xFFDC),
   (0x10000, 0x1000B), (0x1000D, 0x10026), (0x10028, 0x1003A), (0x1003C, 0x1003D),
   (0x1003F, 0x1004D), (0x10050, 0x1005D), (0x10080, 0x100FA), (0x10107, 0x10133),
   (0x10140, 0x10178), (0x1018A, 0x1018B), (0x10280, 0x1029C), (0x102A0, 0x102D0),
   (0x102E1, 0x102FB), (0x10300, 0x10323), (0x1032D, 0x1034A), (0x10350, 0x10375),
   (0x10380, 0x1039D), (0x103A0, 0x103C3), (0x103C8, 0x103CF), (0x103D1, 0x103D5),
   (0x10400, 0x1049D), (0x104A0, 0x104A9), (0x104B0, 0x104D3), (0x104D8, 0x104FB),
   (0x10500, 0x10527), (0x10530, 0x10563), (0x10570, 0x1057A), (0x1057C, 0x1058A),
   (0x1058C, 0x10592), (0x10594, 0x10595), (0x10597, 0x105A1), (0x105A3, 0x105B1),
   (0x105B3, 0x105B9), (0x105BB, 0x105BC), (0x10600, 0x10736), (0x10740, 0x10755),
   (0x10760, 0x10767), (0x10780, 0x10785), (0x10787, 0x107B0), (0x107B2, 0x107BA),
   (0x10800, 0x10805), (0x10808, 0x10808), (0x1080A, 0x10835), (0x10837, 0x10838),
   (0x1083C, 0x1083C), (0x1083F, 0x10855), (0x10858, 0x10876), (0x10879, 0x1089E),
   (0x108A7, 0x108AF), (0x108E0, 0x108F2), (0x108F4, 0x108F5), (0x108FB, 0x1091B),
   (0x10920, 0x10939), (0x10980, 0x109B7), (0x109BC, 0x109CF), (0x109D2, 0x10A00),
   (0x10A10, 0x10A13), (0x10A15, 0x10A17), (0x10A19, 0x10A35), (0x10A40, 0x10A48),
   (0x10A60, 0x10A7E), (0x10A80, 0x10A9F), (0x10AC0, 0x10AC7), (0x10AC9, 0x10AE4),
   (0x10AEB, 0x10AEF), (0x10B00, 0x10B35), (0x10B40, 0x10B55), (0x10B58, 0x10B72),
   (0x10B78, 0x10B91), (0x10BA9, 0x10BAF), (0x10C00, 0x10C48), (0x10C80, 0x10CB2),
   (0x10CC0, 0x10CF2), (0x10CFA, 0x10D23), (0x10D30, 0x10D39), (0x10E60, 0x10E7E),
   (0x10E80, 0x10EA9), (0x10EB0, 0x10EB1), (0x10F00, 0x10F27), (0x10F30, 0x10F45),
   (0x10F51, 0x10F54), (0x10F70, 0x10F81), (0x10FB0, 0x10FCB), (0x10FE0, 0x10FF6),
   (0x11003, 0x11037), (0x11052, 0x1106F), (0x11071, 0x11072), (0x11075, 0x11075),
   (0x11083, 0x110AF), (0x110D0, 0x110E8), (0x110F0, 0x110F9), (0x11103, 0x11126),
   (0x11136, 0x1113F), (0x11144, 0x11144), (0x11147, 0x11147), (0x11150, 0x11172),
   (0x11176, 0x11176), (0x11183, 0x111B2), (0x111C1, 0x111C4), (0x111D0, 0x111DA),
   (0x111DC, 0x111DC), (0x111E1, 0x111F4), (0x11200, 0x11211), (0x11213, 0x1122B),
   (0x11280, 0x11286), (0x11288, 0x11288), (0x1128A, 0x1128D), (0x1128F, 0x1129D),
   (0x1129F, 0x112A8), (0x112B0, 0x112DE), (0x112F0, 0x112F9), (0x11305, 0x1130C),
   (0x1130F, 0x11310), (0x11313, 0x11328), (0x1132A, 0x11330), (0x11332, 0x11333),
   (0x11335, 0x11339), (0x1133D, 0x1133D), (0x11350, 0x11350), (0x1135D, 0x11361),
   (0x11400, 0x11434), (0x11447, 0x1144A), (0x11450, 0x11459), (0x1145F, 0x11461),
   (0x11480, 0x114AF), (0x114C4, 0x114C5), (0x114C7, 0x114C7), (0x114D0, 0x114D9),
   (0x11580, 0x115AE), (0x115D8, 0x115DB), (0x11600, 0x1162F), (0x11644, 0x11644),
   (0x11650, 0x11659), (0x11680, 0x116AA), (0x116B8, 0x116B8), (0x116C0, 0x116C9),
   (0x11700, 0x1171A), (0x11730, 0x1173B), (0x11740, 0x11746), (0x11800, 0x1182B),
   (0x118A0, 0x118F2), (0x118FF, 0x11906), (0x11909, 0x11909), (0x1190C, 0x11913),
   (0x11915, 0x11916), (0x11918, 0x1192F), (0x1193F, 0x1193F), (0x11941, 0x11941),
   (0x11950, 0x11959), (0x119A0, 0x119A7), (0x119AA, 0x119D0), (0x119E1, 0x119E1),
   (0x119E3, 0x119E3), (0x11A00, 0x11A00), (0x11A0B, 0x11A32), (0x11A3A, 0x11A3A),
   (0x11A50, 0x11A50), (0x11A5C, 0x11A89), (0x11A9D, 0x11A9D), (0x11AB0, 0x11AF8),
   (0x11C00, 0x11C08), (0x11C0A, 0x11C2E), (0x11C40, 0x11C40), (0x11C50, 0x11C6C),
   (0x11C72, 0x11C8F), (0x11D00, 0x11D06), (0x11D08, 0x11D09), (0x11D0B, 0x11D30),
   (0x11D46, 0x11D46), (0x11D50, 0x11D59), (0x11D60, 0x11D65), (0x11D67, 0x11D68),
   (0x11D6A, 0x11D89), (0x11D98, 0x11D98), (0x11DA0, 0x11DA9), (0x11EE0, 0x11EF2),
   (0x11FB0, 0x11FB0), (0x11FC0, 0x11FD4), (0x12000, 0x12399), (0x12400, 0x1246E),
   (0x12480, 0x12543), (0x12F90, 0x12FF0), (0x13000, 0x1342E), (0x14400, 0x14646),
   (0x16800, 0x16A38), (0x16A40, 0x16A5E), (0x16A60, 0x16A69), (0x16A70, 0x16ABE),
   (0x16AC0, 0x16AC9), (0x16AD0, 0x16AED), (0x16B00, 0x16B2F), (0x16B40, 0x16B43),
   (0x16B50, 0x16B59), (0x16B5B, 0x16B61), (0x16B63, 0x16B77), (0x16B7D, 0x16B8F),
   (0x16E40, 0x16E96), (0x16F00, 0x16F4A), (0x16F50, 0x16F50), (0x16F93, 0x16F9F),
   (0x16FE0, 0x16FE1), (0x16FE3, 0x16FE3), (0x17000, 0x187F7), (0x18800, 0x18CD5),
   (0x18D00, 0x18D08), (0x1AFF0, 0x1AFF3), (0x1AFF5, 0x1AFFB), (0x1AFFD, 0x1AFFE),
   (0x1B000, 0x1B122), (0x1B150, 0x1B152), (0x1B164, 0x1B167), (0x1B170, 0x1B2FB),
   (0x1BC00, 0x1BC6A), (0x1BC70, 0x1BC7C), (0x1BC80, 0x1BC88), (0x1BC90, 0x1BC99),
   (0x1D2E0, 0x1D2F3), (0x1D360, 0x1D378), (0x1D400, 0x1D454), (0x1D456, 0x1D49C),
   (0x1D49E, 0x1D49F), (0x1D4A2, 0x1D4A2), (0x1D4A5, 0x1D4A6), (0x1D4A9, 0x1D4AC),
   (0x1D4AE, 0x1D4B9), (0x1D4BB, 0x1D4BB), (0x1D4BD, 0x1D4C3), (0x1D4C5, 0x1D505),
   (0x1D507, 0x1D50A), (0x1D50D, 0x1D514), (0x1D516, 0x1D51C), (0x1D51E, 0x1D539),
   (0x1D53B, 0x1D53E), (0x1D540, 0x1D544), (0x1D546, 0x1D546), (0x1D54A, 0x1D550),
   (0x1D552, 0x1D6A5), (0x1D6A8, 0x1D6C0), (0x1D6C2, 0x1D6DA), (0x1D6DC, 0x1D6FA),
   (0x1D6FC, 0x1D714), (0x1D716, 0x1D734), (0x1D736, 0x1D74E), (0x1D750, 0x1D76E),
   (0x1D770, 0x1D788), (0x1D78A, 0x1D7A8), (0x1D7AA, 0x1D7C2), (0x1D7C4, 0x1D7CB),
   (0x1D7CE, 0x1D7FF), (0x1DF00, 0x1DF1E), (0x1E100, 0x1E12C), (0x1E137, 0x1E13D),
   (0x1E140, 0x1E149), (0x1E14E, 0x1E14E), (0x1E290, 0x1E2AD), (0x1E2C0, 0x1E2EB),
   (0x1E2F0, 0x1E2F9), (0x1E7E0, 0x1E7E6), (0x1E7E8, 0x1E7EB), (0x1E7ED, 0x1E7EE),
   (0x1E7F0, 0x1E7FE), (0x1E800, 0x1E8C4), (0x1E8C7, 0x1E8CF), (0x1E900, 0x1E943),
   (0x1E94B, 0x1E94B), (0x1E950, 0x1E959), (0x1EC71, 0x1ECAB), (0x1ECAD, 0x1ECAF),
   (0x1ECB1, 0x1ECB4), (0x1ED01, 0x1ED2D), (0x1ED2F, 0x1ED3D), (0x1EE00, 0x1EE03),
   (0x1EE05, 0x1EE1F), (0x1EE21, 0x1EE22), (0x1EE24, 0x1EE24), (0x1EE27, 0x1EE27),
   (0x1EE29, 0x1EE32), (0x1EE34, 0x1EE37), (0x1EE39, 0x1EE39), (0x1EE3B, 0x1EE3B),
   (0x1EE42, 0x1EE42), (0x1EE47, 0x1EE47), (0x1EE49, 0x1EE49), (0x1EE4B, 0x1EE4B),
   (0x1EE4D, 0x1EE4F), (0x1EE51, 0x1EE52), (0x1EE54, 0x1EE54), (0x1EE57, 0x1EE57),
   (0x1EE59, 0x1EE59), (0x1EE5B, 0x1EE5B), (0x1EE5D, 0x1EE5D), (0x1EE5F, 0x1EE5F),
   (0x1EE61, 0x1EE62), (0x1EE64, 0x1EE64), (0x1EE67, 0x1EE6A), (0x1EE6C, 0x1EE72),
   (0x1EE74, 0x1EE77), (0x1EE79, 0x1EE7C), (0x1EE7E, 0x1EE7E), (0x1EE80, 0x1EE89),
   (0x1EE8B, 0x1EE9B), (0x1EEA1, 0x1EEA3), (0x1EEA5, 0x1EEA9), (0x1EEAB, 0x1EEBB),
   (0x1F100, 0x1F10C), (0x1FBF0, 0x1FBF9), (0x20000, 0x2A6DF), (0x2A700, 0x2B738),
   (0x2B740, 0x2B81D), (0x2B820, 0x2CEA1), (0x2CEB0, 0x2EBE0), (0x2F800, 0x2FA1D),
   (0x30000, 0x3134A)]

/-- Models Python `str.isalnum`, which is Unicode-aware: true exactly on the
code points of `alnumRanges`.  In particular Python classifies accented
letters such as `ö` (U+00F6), superscripts such as `²` (U+00B2) and non-Latin
letters such as Arabic `أ` as alphanumeric. -/
def pyIsAlnum (c : Char) : Bool :=
  alnumRanges.any (fun r => decide (r.1 ≤ c.toNat) && decide (c.toNat ≤ r.2))

/-- The sanitized filename stem of `batch_generate`:
`"".join(c if c.isalnum() or c in (' ', '-', '_') else '_' for c in attendee)`. -/
def safe_name (attendee : String) : String :=
  ⟨attendee.data.map (fun c =>
    if pyIsAlnum c || c == ' ' || c == '-' || c == '_' then c else '_')⟩

/-- Python `os.path.join(a, b)` on POSIX for two components. -/
def pathJoin (a b : String) : String :=
  if b.startsWith "/" then b
  else if a = "" then b
  else if a.endsWith "/" then a ++ b
  else a ++ "/" ++ b

/-! ## The PIL image model

An image is the tree of constructors the code applies to it.  `file` is a
decoded template raster (`Image.open`); its pixel contents are irrelevant to
every claim, only its dimensions matter.  `qrImage` records every argument of
the `qrcode.QRCode(...)`/`make_image` call; its native pixel size (module
count times box size, chosen by the library from the payload length) is
supplied by the environment.  `text` and `paste` record the drawing calls
(`ImageDraw.Draw(...).text`, `Image.paste`) with their exact arguments;
`resize` is `Image.resize`.  `Image.copy` duplicates the pixel buffer, which
on this value level is the identity. -/

/-- A font object: `ImageFont.truetype(path, size)` or
`ImageFont.load_default()`. -/
inductive FontHandle where
  | truetype (path : String) (size : Nat)
  | defaultFont
deriving Repr, DecidableEq

/-- The `qrcode` error-correction constants. -/
inductive ECLevel where
  | L
  | M
  | Q
  | H
deriving Repr, DecidableEq

/-- A PIL image as the tree of operations that produced it. -/
inductive Img where
  | file (width height : Nat)
  | qrImage (nativeSize : Nat) (version : Nat) (errorCorrection : ECLevel)
      (boxSize border : Nat) (fit : Bool) (data fillColor backColor : String)
  | resize (src : Img) (w h : Nat)
  | text (src : Img) (xy : Int × Int) (s : String) (font : FontHandle)
      (fill : Nat × Nat × Nat)
  | paste (src : Img) (pasted : Img) (xy : Int × Int)
deriving Repr, DecidableEq

/-- `Image.copy()`: a duplicate of the pixel buffer, equal as a value. -/
def Img.copy (i : Img) : Img := i

/-- The width of an image.  Text drawing and pasting never change the
dimensions of the image drawn on; resizing sets them. -/
def Img.width : Img → Nat
  | .file w _ => w
  | .qrImage n _ _ _ _ _ _ _ _ => n
  | .resize _ w _ => w
  | .text src _ _ _ _ => src.width
  | .paste src _ _ => src.width

/-- The height of an image. -/
def Img.height : Img → Nat
  | .file _ h => h
  | .qrImage n _ _ _ _ _ _ _ _ => n
  | .resize _ _ h => h
  | .text src _ _ _ _ => src.height
  | .paste src _ _ => src.height

/-- A text-drawing call recorded on an image. -/
structure TextCall where
  xy : Int × Int
  str : String
  font : FontHandle
  fill : Nat × Nat × Nat
deriving Repr, DecidableEq

/-- The text-drawing calls applied to this image (not those inside pasted
sub-images), in application order. -/
def Img.texts : Img → List TextCall
  | .file _ _ => []
  | .qrImage _ _ _ _ _ _ _ _ _ => []
  | .resize src _ _ => src.texts
  | .text src xy s f fill => src.texts ++ [⟨xy, s, f, fill⟩]
  | .paste src _ _ => src.texts

/-- The paste calls applied to this image, in application order: the pasted
image and its position. -/
def Img.pastes : Img → List (Img × Int × Int)
  | .file _ _ => []
  | .qrImage _ _ _ _ _ _ _ _ _ => []
  | .resize src _ _ => src.pastes
  | .text src _ _ _ _ => src.pastes
  | .paste src p xy => src.pastes ++ [(p, xy)]

/-! ## The generator -/

/-- Library behaviour the code invokes but does not define: whether
`ImageFont.truetype(path, size)` succeeds on a given font path (missing or
corrupt files make it raise, caught by the code), and the native pixel size
the `qrcode` library gives `make_image` for a given payload
(modules-plus-border times box size, with `fit=True` version selection). -/
structure Env where
  fontOk : String → Bool
  qrNativeSize : String → Nat

/-- `CertificateGenerator.__init__`: stores the opened template, the event
name, and the template's dimensions. -/
structure CertificateGenerator where
  template : Img
  event_name : String
  template_width : Nat
  template_height : Nat
deriving Repr, DecidableEq

/-- `CertificateGenerator(template_path, event_name)`: `Image.open` has decoded
the template image `tmpl`; `self.template_width, self.template_height =
self.template.size`. -/
def CertificateGenerator.init (tmpl : Img) (event_name : String) :
    CertificateGenerator :=
  ⟨tmpl, event_name, tmpl.width, tmpl.height⟩

/-- `generate_qr_code(self, attendee_name, cert_hash)`, with the
`datetime.now()` capture as the explicit `now` parameter.  Builds the
`verification_data` dict, serializes it with `json.dumps`, and renders it with
`qrcode.QRCode(version=1, error_correction=ERROR_CORRECT_L, box_size=10,
border=2)`, `add_data`, `make(fit=True)`,
`make_image(fill_color="black", back_color="white")`. -/
def generate_qr_code (g : CertificateGenerator) (env : Env) (now : PyDateTime)
    (attendee_name cert_hash : String) : Img :=
  let verification_data : VerificationData :=
    ⟨cert_hash, attendee_name, g.event_name, strftimeYmdHMS now⟩
  let payload := dumpsPayload verification_data
  .qrImage (env.qrNativeSize payload) 1 .L 10 2 true payload "black" "white"

/-- `generate_certificate(self, attendee_name, name_position, font_path,
font_size, text_color, hash_position=None, qr_position=None, qr_size=150)`.
The two `datetime.now()` captures (inside `generate_hash` and inside
`generate_qr_code`) are the explicit parameters `hashTime` and `qrTime`.
Python's in-place mutation of the working copy `cert` is modelled by
rebinding; `self` is never assigned, so the generator state is returned
unchanged as the first component. -/
def generate_certificate (g : CertificateGenerator) (env : Env)
    (hashTime qrTime : PyDateTime) (attendee_name : String)
    (name_position : Int × Int) (font_path : String) (font_size : Nat)
    (text_color : Nat × Nat × Nat) (hash_position qr_position : Option (Int × Int))
    (qr_size : Nat) : CertificateGenerator × Img × String :=
  let cert := g.template.copy
  let fonts :=
    if env.fontOk font_path then
      (FontHandle.truetype font_path font_size,
       FontHandle.truetype font_path (max 12 (font_size / 3)))
    else
      (FontHandle.defaultFont, FontHandle.defaultFont)
  let font := fonts.1
  let hash_font := fonts.2
  let cert := cert.text name_position attendee_name font text_color
  let cert_hash := generate_hash g.event_name attendee_name hashTime
  let hash_display := "ID: " ++ (cert_hash.take 12).map Char.toUpper
  let cert :=
    match hash_position with
    | some hp => cert.text hp hash_display hash_font text_color
    | none => cert.text (50, (g.template_height : Int) - 100) hash_display hash_font text_color
  let qr_img := generate_qr_code g env qrTime attendee_name cert_hash
  let qr_img := qr_img.resize qr_size qr_size
  let cert :=
    match qr_position with
    | some qp => cert.paste qr_img qp
    | none =>
      cert.paste qr_img
        ((g.template_width : Int) - qr_size - 50, (g.template_height : Int) - qr_size - 50)
  (g, cert, cert_hash)

/-! ## Output writing and batch orchestration -/

/-- A filesystem effect of the batch: `os.makedirs(dir, exist_ok=...)` (which
also creates intermediate directories), `save_as_pdf` (RGB-convert, PNG-encode
and wrap in a single-page PDF at `path`), or `Image.save` as PNG at `path`. -/
inductive FSOp where
  | makedirs (dir : String) (exist_ok : Bool)
  | writePdf (path : String) (image : Img)
  | writePng (path : String) (image : Img)
deriving Repr, DecidableEq

/-- Whether an effect is a certificate file write. -/
def FSOp.isWrite : FSOp → Bool
  | .makedirs _ _ => false
  | .writePdf _ _ => true
  | .writePng _ _ => true

/-- One result dict appended by `batch_generate`:
`{'name': attendee, 'hash': cert_hash, 'path': output_path}`. -/
structure BatchRecord where
  name : String
  hash : String
  path : String
deriving Repr, DecidableEq

/-- The per-attendee loop of `batch_generate`, from loop index `i`:
generate the certificate, sanitize the name, save as PDF or PNG, append the
result record.  Returns the filesystem effects and the result list, both in
processing order. -/
def batchLoop (g : CertificateGenerator) (env : Env)
    (clock : Nat → PyDateTime × PyDateTime) (output_dir : String)
    (name_position : Int × Int) (font_path : String) (font_size : Nat)
    (text_color : Nat × Nat × Nat) (hash_position qr_position : Option (Int × Int))
    (qr_size : Nat) (save_as_pdf : Bool) :
    Nat → List String → List FSOp × List BatchRecord
  | _, [] => ([], [])
  | i, attendee :: rest =>
    let r := generate_certificate g env (clock i).1 (clock i).2 attendee
      name_position font_path font_size text_color hash_position qr_position qr_size
    let cert := r.2.1
    let cert_hash := r.2.2
    let sname := safe_name attendee
    let output_path :=
      if save_as_pdf then pathJoin output_dir (sname ++ ".pdf")
      else pathJoin output_dir (sname ++ ".png")
    let op :=
      if save_as_pdf then FSOp.writePdf output_path cert
      else FSOp.writePng output_path cert
    let rec0 : BatchRecord := ⟨attendee, cert_hash, output_path⟩
    let rr := batchLoop g env clock output_dir name_position font_path font_size
      text_color hash_position qr_position qr_size save_as_pdf (i + 1) rest
    (op :: rr.1, rec0 :: rr.2)

/-- `batch_generate(self, attendees, output_dir, name_position, font_path,
font_size, text_color, hash_position=None, qr_position=None, qr_size=150,
save_as_pdf=True)`: `os.makedirs(output_dir, exist_ok=True)` first, then the
per-attendee loop.  The clock stream supplies the two `datetime.now()`
captures of attendee `i` as `clock i`. -/
def batch_generate (g : CertificateGenerator) (env : Env)
    (clock : Nat → PyDateTime × PyDateTime) (attendees : List String)
    (output_dir : String) (name_position : Int × Int) (font_path : String)
    (font_size : Nat) (text_color : Nat × Nat × Nat)
    (hash_position qr_position : Option (Int × Int)) (qr_size : Nat)
    (save_as_pdf : Bool) : List FSOp × List BatchRecord :=
  let rr := batchLoop g env clock output_dir name_position font_path font_size
    text_color hash_position qr_position qr_size save_as_pdf 0 attendees
  (FSOp.makedirs output_dir true :: rr.1, rr.2)

/-! ## Supporting lemmas: digest shape -/

/-- A lowercase hexadecimal digit. -/
def isLowerHex (c : Char) : Bool :=
  (decide ('0' ≤ c) && decide (c ≤ '9')) || (decide ('a' ≤ c) && decide (c ≤ 'f'))

theorem toHex8_length (w : Nat) : (toHex8 w).length = 8 := by
  simp [toHex8]

theorem hexDigit_lower {n : Nat} (h : n < 16) : isLowerHex (hexDigit n) = true := by
  interval_cases n <;> decide

theorem toHex8_all_lower (w : Nat) : (toHex8 w).all isLowerHex = true := by
  simp only [toHex8, List.all_eq_true]
  intro c hc
  simp only [List.mem_map, List.mem_range] at hc
  obtain ⟨i, _, rfl⟩ := hc
  exact hexDigit_lower (Nat.mod_lt _ (by norm_num))

theorem sha256hex_length (m : List Nat) : (sha256hex m).length = 64 := by
  simp [sha256hex, String.length, digestWords, toHex8_length]

theorem sha256hex_all_lower (m : List Nat) : (sha256hex m).data.all isLowerHex = true := by
  simp [sha256hex, digestWords, toHex8_all_lower]

/-! ## Supporting lemmas: string appends -/

theorem string_append_cancel_left {a b c : String} (h : a ++ b = a ++ c) : b = c := by
  have hd := congrArg String.data h
  simp only [String.data_append] at hd
  exact String.ext (List.append_cancel_left hd)

/-! ## Supporting lemmas: JSON round trip -/

theorem escChar_length_pos (c : Char) : 1 ≤ (escChar c).length := by
  unfold escChar
  repeat' split
  all_goals simp [hex4]

theorem escList_length_ge (l : List Char) : l.length ≤ (escList l).length := by
  induction l with
  | nil => simp [escList]
  | cons c l ih =>
    simp only [escList, List.map_cons, List.flatten_cons, List.length_append,
      List.length_cons] at *
    have := escChar_length_pos c
    omega

theorem hexVal_hexDigit {k : Nat} (h : k < 16) : hexVal (hexDigit k) = some k := by
  interval_cases k <;> decide

theorem hexVal4_hex4 (n : Nat) (h : n < 0x10000) :
    hexVal4 (hexDigit (n >>> 12 % 16)) (hexDigit (n >>> 8 % 16))
      (hexDigit (n >>> 4 % 16)) (hexDigit (n % 16)) = some n := by
  rw [hexVal4, hexVal_hexDigit (Nat.mod_lt _ (by norm_num)),
    hexVal_hexDigit (Nat.mod_lt _ (by norm_num)),
    hexVal_hexDigit (Nat.mod_lt _ (by norm_num)),
    hexVal_hexDigit (Nat.mod_lt _ (by norm_num))]
  simp only [Nat.shiftRight_eq_div_pow]
  norm_num
  omega

theorem expectLit_append (lit rest : List Char) : expectLit lit (lit ++ rest) = some rest := by
  induction lit with
  | nil => simp [expectLit]
  | cons c cs ih => simp [expectLit, ih]

theorem unesc_escList (l : List Char) : ∀ (rest : List Char) (fuel : Nat),
    l.length + 1 ≤ fuel → unesc fuel (escList l ++ '"' :: rest) = some (l, rest) := by
  induction l with
  | nil =>
    intro rest fuel hf
    obtain ⟨f, rfl⟩ : ∃ f, fuel = f + 1 := ⟨fuel - 1, by omega⟩
    simp [escList, unesc]
  | cons c l ih =>
    intro rest fuel hf
    obtain ⟨f, rfl⟩ : ∃ f, fuel = f + 1 := ⟨fuel - 1, by omega⟩
    have hrec := ih rest f (by simp only [List.length_cons] at hf; omega)
    simp only [escList] at hrec ⊢
    simp only [List.map_cons, List.flatten_cons, List.append_assoc]
    by_cases h1 : c = '"'
    · subst h1
      simp +decide [escChar, unesc, unescShort, hrec]
    by_cases h2 : c = '\\'
    · subst h2
      simp +decide [escChar, unesc, unescShort, hrec]
    by_cases h3 : c = '\n'
    · subst h3
      simp +decide [escChar, unesc, unescShort, hrec]
    by_cases h4 : c = '\r'
    · subst h4
      simp +decide [escChar, unesc, unescShort, hrec]
    by_cases h5 : c = '\t'
    · subst h5
      simp +decide [escChar, unesc, unescShort, hrec]
    by_cases h6 : c.toNat = 8
    · have hc : c = Char.ofNat 8 := by rw [← h6, Char.ofNat_toNat]
      subst hc
      simp +decide [escChar, unesc, unescShort, hrec]
    by_cases h7 : c.toNat = 12
    · have hc : c = Char.ofNat 12 := by rw [← h7, Char.ofNat_toNat]
      subst hc
      simp +decide [escChar, unesc, unescShort, hrec]
    by_cases h8 : 0x20 ≤ c.toNat ∧ c.toNat ≤ 0x7E
    · simp only [escChar, h1, h2, h3, h4, h5, h6, h7, h8, if_false, if_true,
        if_neg, if_pos, List.cons_append, List.nil_append]
      simp [unesc, h1, h2, hrec]
    by_cases h9 : c.toNat < 0x10000
    · have hvn : c.toNat = c.val.toNat := rfl
      have hnos : ¬(0xD800 ≤ c.toNat ∧ c.toNat < 0xDC00) := by
        rcases c.valid with hv | ⟨hva, hvb⟩ <;> omega
      simp only [escChar, h1, h2, h3, h4, h5, h6, h7, h8, h9, if_false, if_true,
        if_neg, if_pos, hex4, List.cons_append, List.nil_append]
      rw [unesc]
      simp only [if_neg (by decide : ¬('\\' : Char) = '"'), if_pos rfl,
        if_pos rfl, hexVal4_hex4 c.toNat h9, hnos, if_false, hrec]
      simp [Char.ofNat_toNat]
    · have hvn : c.toNat = c.val.toNat := rfl
      have hv : c.toNat < 0x110000 := by
        rcases c.valid with hv | ⟨hva, hvb⟩ <;> omega
      have hhi1 : 0xD800 + (c.toNat - 0x10000) / 0x400 < 0x10000 := by omega
      have hhi2 : 0xD800 ≤ 0xD800 + (c.toNat - 0x10000) / 0x400 ∧
          0xD800 + (c.toNat - 0x10000) / 0x400 < 0xDC00 := by omega
      have hlo1 : 0xDC00 + (c.toNat - 0x10000) % 0x400 < 0x10000 := by omega
      have hlo2 : 0xDC00 ≤ 0xDC00 + (c.toNat - 0x10000) % 0x400 ∧
          0xDC00 + (c.toNat - 0x10000) % 0x400 < 0xE000 := by omega
      have harith : 0x10000 + (0xD800 + (c.toNat - 0x10000) / 0x400 - 0xD800) * 0x400 +
          (0xDC00 + (c.toNat - 0x10000) % 0x400 - 0xDC00) = c.toNat := by omega
      simp only [escChar, h1, h2, h3, h4, h5, h6, h7, h8, h9, if_false, if_true,
        if_neg, if_pos, hex4, List.cons_append, List.nil_append, List.append_assoc]
      rw [unesc]
      simp only [if_neg (by decide : ¬('\\' : Char) = '"'), if_pos rfl, if_pos rfl,
        hexVal4_hex4 _ hhi1, hexVal4_hex4 _ hlo1, hhi2, hlo2, if_pos, if_true, hrec,
        and_self]
      rw [harith, Char.ofNat_toNat]

theorem parsePayload_dumpsPayload (v : VerificationData) :
    parsePayload (dumpsPayload v) = some v := by
  have hlen : ∀ (s : String) (r : List Char),
      unesc (escList s.data ++ '"' :: r).length (escList s.data ++ '"' :: r) =
        some (s.data, r) := by
    intro s r
    apply unesc_escList
    have := escList_length_ge s.data
    simp only [List.length_append, List.length_cons]
    omega
  simp only [parsePayload, dumpsPayload, jsonEsc, String.data_append,
    List.append_assoc, List.cons_append, List.nil_append]
  simp +decide only [expectLit, hlen, if_true]

/-! ## Supporting lemmas: the batch loop -/

theorem batchLoop_map_name (g : CertificateGenerator) (env : Env)
    (clock : Nat → PyDateTime × PyDateTime) (dir : String) (np : Int × Int)
    (fp : String) (fs : Nat) (color : Nat × Nat × Nat)
    (hp qp : Option (Int × Int)) (qs : Nat) (sp : Bool) :
    ∀ (as : List String) (i : Nat),
      ((batchLoop g env clock dir np fp fs color hp qp qs sp i as).2).map
        BatchRecord.name = as := by
  intro as
  induction as with
  | nil => intro i; simp [batchLoop]
  | cons a as ih => intro i; simp [batchLoop, ih]

theorem batchLoop_map_path (g : CertificateGenerator) (env : Env)
    (clock : Nat → PyDateTime × PyDateTime) (dir : String) (np : Int × Int)
    (fp : String) (fs : Nat) (color : Nat × Nat × Nat)
    (hp qp : Option (Int × Int)) (qs : Nat) (sp : Bool) :
    ∀ (as : List String) (i : Nat),
      ((batchLoop g env clock dir np fp fs color hp qp qs sp i as).2).map
          BatchRecord.path =
        as.map (fun a =>
          if sp then pathJoin dir (safe_name a ++ ".pdf")
          else pathJoin dir (safe_name a ++ ".png")) := by
  intro as
  induction as with
  | nil => intro i; simp [batchLoop]
  | cons a as ih => intro i; simp [batchLoop, ih]

theorem batchLoop_ops_write (g : CertificateGenerator) (env : Env)
    (clock : Nat → PyDateTime × PyDateTime) (dir : String) (np : Int × Int)
    (fp : String) (fs : Nat) (color : Nat × Nat × Nat)
    (hp qp : Option (Int × Int)) (qs : Nat) (sp : Bool) :
    ∀ (as : List String) (i : Nat),
      ((batchLoop g env clock dir np fp fs color hp qp qs sp i as).1).all
        FSOp.isWrite = true := by
  intro as
  induction as with
  | nil => intro i; simp [batchLoop]
  | cons a as ih =>
    intro i
    simp only [batchLoop, List.all_cons, ih, Bool.and_true]
    cases sp <;> simp [FSOp.isWrite]

/-! ## The claims -/

/-- C1, counterexample: the spec's sanitization example fails on the code.
Python `str.isalnum` is Unicode-aware, so `ö` is kept, not replaced: the stem
of `"Jöhn/Doe*1"` is not `"J_hn_Doe_1"`. -/
theorem safe_name_spec_example_refuted : safe_name "Jöhn/Doe*1" ≠ "J_hn_Doe_1" := by
  decide

/-- C1 (amended): every output filename of the batch is
`output_dir / (sanitized stem ++ ".pdf" or ".png")`, where the stem replaces
each character that is not alphanumeric (per Unicode, as Python classifies),
space, hyphen or underscore with one underscore and keeps the rest verbatim;
`"Jöhn/Doe*1"` yields stem `"Jöhn_Doe_1"` (the `ö` is alphanumeric and kept),
`"Ahmad"` yields `"Ahmad"`, non-Latin and superscript alphanumerics are kept
verbatim (`"أحمد"` and `"F²"` are unchanged), and no deduplication is applied:
the two distinct attendees `"A_b"` and `"A?b"` sanitize to the same stem and
are written to the same output path. -/
theorem filename_sanitize_amended (g : CertificateGenerator) (env : Env)
    (clock : Nat → PyDateTime × PyDateTime) (attendees : List String)
    (output_dir : String) (np : Int × Int) (fp : String) (fs : Nat)
    (color : Nat × Nat × Nat) (hp qp : Option (Int × Int)) (qs : Nat) (sp : Bool) :
    ((batch_generate g env clock attendees output_dir np fp fs color hp qp qs sp).2).map
        BatchRecord.path =
      attendees.map (fun a =>
        if sp then pathJoin output_dir (safe_name a ++ ".pdf")
        else pathJoin output_dir (safe_name a ++ ".png")) ∧
    safe_name "Jöhn/Doe*1" = "Jöhn_Doe_1" ∧
    safe_name "Ahmad" = "Ahmad" ∧
    safe_name "أحمد" = "أحمد" ∧
    safe_name "F²" = "F²" ∧
    ((batch_generate g env clock ["A_b", "A?b"] output_dir np fp fs color hp qp qs true).2).map
        BatchRecord.path =
      [pathJoin output_dir "A_b.pdf", pathJoin output_dir "A_b.pdf"] := by
  have h1 : safe_name "A_b" ++ ".pdf" = "A_b.pdf" := by decide
  have h2 : safe_name "A?b" ++ ".pdf" = "A_b.pdf" := by decide
  refine ⟨?_, by decide, by decide, by decide, by decide, ?_⟩
  · simp [batch_generate, batchLoop_map_path]
  · simp [batch_generate, batchLoop_map_path, h1, h2]

/-- C2: the image returned by `generate_certificate` has exactly the
template's width and height, for every input: text drawing and pasting never
change the base dimensions, and the only resize is applied to the QR image. -/
theorem render_preserves_template_dimensions (g : CertificateGenerator)
    (env : Env) (t1 t2 : PyDateTime) (attendee : String) (np : Int × Int)
    (fp : String) (fs : Nat) (color : Nat × Nat × Nat)
    (hp qp : Option (Int × Int)) (qs : Nat) :
    (generate_certificate g env t1 t2 attendee np fp fs color hp qp qs).2.1.width =
      g.template.width ∧
    (generate_certificate g env t1 t2 attendee np fp fs color hp qp qs).2.1.height =
      g.template.height := by
  cases hp <;> cases qp <;>
    simp [generate_certificate, Img.copy, Img.width, Img.height]

/-- C3: `generate_certificate` works on a copy of the template; the generator
state (the stored template image and the event name) is exactly what it was
before the call, for every input. -/
theorem render_leaves_generator_state_unchanged (g : CertificateGenerator)
    (env : Env) (t1 t2 : PyDateTime) (attendee : String) (np : Int × Int)
    (fp : String) (fs : Nat) (color : Nat × Nat × Nat)
    (hp qp : Option (Int × Int)) (qs : Nat) :
    (generate_certificate g env t1 t2 attendee np fp fs color hp qp qs).1 = g ∧
    (generate_certificate g env t1 t2 attendee np fp fs color hp qp qs).1.template =
      g.template ∧
    (generate_certificate g env t1 t2 attendee np fp fs color hp qp qs).1.event_name =
      g.event_name :=
  ⟨rfl, rfl, rfl⟩

/-- C4: for every attendee name (empty included), event name and captured
timestamp, the minted hash is the SHA-256 digest, hex-encoded in lowercase and
exactly 64 characters long, of the plain concatenation of attendee name, event
name and the ISO-8601 rendering of the captured timestamp. -/
theorem hash_is_sha256_hex_of_concatenation (event attendee : String)
    (now : PyDateTime) :
    generate_hash event attendee now =
      sha256hex (utf8Encode (attendee ++ event ++ isoformat now)) ∧
    (generate_hash event attendee now).length = 64 ∧
    (generate_hash event attendee now).data.all isLowerHex = true :=
  ⟨rfl, sha256hex_length _, sha256hex_all_lower _⟩

/-- C5, counterexample: it is not true that two separate calls with identical
inputs always return different hashes.  The code re-reads the clock each call
but nothing prevents `datetime.now()` from returning the same value twice;
with equal captured timestamps the two hashes are identical. -/
theorem hash_uniqueness_refuted_on_equal_timestamps :
    ¬ ∀ ts1 ts2 : PyDateTime,
        generate_hash "GDG Basra Event" "Ahmad" ts1 ≠
          generate_hash "GDG Basra Event" "Ahmad" ts2 := by
  intro h
  exact h ⟨2026, 1, 1, 0, 0, 0, 0⟩ ⟨2026, 1, 1, 0, 0, 0, 0⟩ rfl

/-- C5 (amended): two calls with identical attendee and event names digest
different byte strings exactly insofar as their captured timestamps render
differently: when the ISO timestamps differ, the strings fed to SHA-256
differ (so the hashes differ unless SHA-256 itself collides on them); each
hash is the digest of its call's own timestamped string. -/
theorem hash_preimages_differ_amended (event attendee : String)
    (ts1 ts2 : PyDateTime) (h : isoformat ts1 ≠ isoformat ts2) :
    hashData event attendee ts1 ≠ hashData event attendee ts2 ∧
    generate_hash event attendee ts1 =
      sha256hex (utf8Encode (hashData event attendee ts1)) := by
  refine ⟨fun heq => h ?_, rfl⟩
  exact string_append_cancel_left heq

/-- Witness for the amended C5 at concrete timestamps one second apart. -/
theorem hash_preimages_differ_amended_witness :
    isoformat ⟨2026, 10, 12, 9, 0, 0, 0⟩ ≠ isoformat ⟨2026, 10, 12, 9, 0, 1, 0⟩ ∧
    hashData "GDG Basra Event" "Ahmad" ⟨2026, 10, 12, 9, 0, 0, 0⟩ ≠
      hashData "GDG Basra Event" "Ahmad" ⟨2026, 10, 12, 9, 0, 1, 0⟩ :=
  ⟨by decide,
   (hash_preimages_differ_amended "GDG Basra Event" "Ahmad"
     ⟨2026, 10, 12, 9, 0, 0, 0⟩ ⟨2026, 10, 12, 9, 0, 1, 0⟩ (by decide)).1⟩

/-- C6: when the font loads, the render draws exactly two texts on top of the
template copy: the name, and the hash stamp `"ID: " ++ first 12 hash
characters uppercased` at the supplied `hash_position` or at the default
bottom-left inset `(50, template_height - 100)`, with the secondary font of
size `max 12 (font_size / 3)` and the same text color as the name. -/
theorem hash_stamp_text_position_font (g : CertificateGenerator) (env : Env)
    (t1 t2 : PyDateTime) (attendee : String) (np : Int × Int) (fp : String)
    (fs : Nat) (color : Nat × Nat × Nat) (hp qp : Option (Int × Int)) (qs : Nat)
    (hfont : env.fontOk fp = true) :
    (generate_certificate g env t1 t2 attendee np fp fs color hp qp qs).2.1.texts =
      g.template.texts ++
      [⟨np, attendee, .truetype fp fs, color⟩,
       ⟨hp.getD (50, (g.template_height : Int) - 100),
        "ID: " ++ ((generate_hash g.event_name attendee t1).take 12).map Char.toUpper,
        .truetype fp (max 12 (fs / 3)), color⟩] := by
  cases hp <;> cases qp <;>
    simp [generate_certificate, Img.copy, Img.texts, hfont, Option.getD]

/-- Witness for C6 on a 1200×800 template with loadable font, `font_size` 48
and default positions. -/
theorem hash_stamp_text_position_font_witness :
    (⟨fun _ => true, fun _ => 290⟩ : Env).fontOk "f.ttf" = true ∧
    (generate_certificate (CertificateGenerator.init (.file 1200 800) "GDG Basra Event")
        ⟨fun _ => true, fun _ => 290⟩ ⟨2026, 1, 2, 3, 4, 5, 6⟩ ⟨2026, 1, 2, 3, 4, 5, 7⟩
        "Alice" (600, 400) "f.ttf" 48 (0, 0, 0) none none 150).2.1.texts =
      [⟨(600, 400), "Alice", .truetype "f.ttf" 48, (0, 0, 0)⟩,
       ⟨(50, 700),
        "ID: " ++ ((generate_hash "GDG Basra Event" "Alice" ⟨2026, 1, 2, 3, 4, 5, 6⟩).take 12).map
          Char.toUpper,
        .truetype "f.ttf" 16, (0, 0, 0)⟩] :=
  ⟨rfl,
   hash_stamp_text_position_font (CertificateGenerator.init (.file 1200 800) "GDG Basra Event")
     ⟨fun _ => true, fun _ => 290⟩ ⟨2026, 1, 2, 3, 4, 5, 6⟩ ⟨2026, 1, 2, 3, 4, 5, 7⟩
     "Alice" (600, 400) "f.ttf" 48 (0, 0, 0) none none 150 rfl⟩

/-- C7: the QR pasted onto the certificate (resized to `qr_size × qr_size`, at
`qr_position` or the default bottom-right inset) encodes the `json.dumps` of
the record with exactly the four fields hash, name, event, date, where hash is
the hash the render returns, name and event are verbatim, and date is the
independently captured `"%Y-%m-%d %H:%M:%S"` timestamp; decoding that payload
recovers the record, in particular the returned hash. -/
theorem qr_payload_roundtrip (g : CertificateGenerator) (env : Env)
    (t1 t2 : PyDateTime) (attendee : String) (np : Int × Int) (fp : String)
    (fs : Nat) (color : Nat × Nat × Nat) (hp qp : Option (Int × Int)) (qs : Nat) :
    (generate_certificate g env t1 t2 attendee np fp fs color hp qp qs).2.1.pastes =
      g.template.pastes ++
      [(Img.resize
          (Img.qrImage
            (env.qrNativeSize (dumpsPayload
              ⟨(generate_certificate g env t1 t2 attendee np fp fs color hp qp qs).2.2,
               attendee, g.event_name, strftimeYmdHMS t2⟩))
            1 .L 10 2 true
            (dumpsPayload
              ⟨(generate_certificate g env t1 t2 attendee np fp fs color hp qp qs).2.2,
               attendee, g.event_name, strftimeYmdHMS t2⟩)
            "black" "white")
          qs qs,
        qp.getD ((g.template_width : Int) - qs - 50, (g.template_height : Int) - qs - 50))] ∧
    parsePayload (dumpsPayload
        ⟨(generate_certificate g env t1 t2 attendee np fp fs color hp qp qs).2.2,
         attendee, g.event_name, strftimeYmdHMS t2⟩) =
      some ⟨(generate_certificate g env t1 t2 attendee np fp fs color hp qp qs).2.2,
            attendee, g.event_name, strftimeYmdHMS t2⟩ := by
  refine ⟨?_, parsePayload_dumpsPayload _⟩
  cases hp <;> cases qp <;>
    simp [generate_certificate, generate_qr_code, Img.copy, Img.pastes, Option.getD]

/-- C8: a font path the loader rejects (missing or corrupt) is non-fatal: the
render falls back to the built-in default font for both the name text and the
hash text and still returns a fully composed certificate (both texts drawn,
QR pasted, template dimensions kept) together with the minted hash. -/
theorem font_fallback_non_fatal (g : CertificateGenerator) (env : Env)
    (t1 t2 : PyDateTime) (attendee : String) (np : Int × Int) (fp : String)
    (fs : Nat) (color : Nat × Nat × Nat) (hp qp : Option (Int × Int)) (qs : Nat)
    (hfont : env.fontOk fp = false) :
    ((generate_certificate g env t1 t2 attendee np fp fs color hp qp qs).2.1.texts).map
        TextCall.font =
      g.template.texts.map TextCall.font ++ [FontHandle.defaultFont, FontHandle.defaultFont] ∧
    (generate_certificate g env t1 t2 attendee np fp fs color hp qp qs).2.2 =
      generate_hash g.event_name attendee t1 ∧
    (generate_certificate g env t1 t2 attendee np fp fs color hp qp qs).2.1.width =
      g.template.width ∧
    (generate_certificate g env t1 t2 attendee np fp fs color hp qp qs).2.1.height =
      g.template.height ∧
    ((generate_certificate g env t1 t2 attendee np fp fs color hp qp qs).2.1.pastes).length =
      g.template.pastes.length + 1 := by
  cases hp <;> cases qp <;>
    simp [generate_certificate, Img.copy, Img.texts, Img.pastes, Img.width, Img.height, hfont]

/-- Witness for C8 with a font path on which loading fails. -/
theorem font_fallback_non_fatal_witness :
    (⟨fun _ => false, fun _ => 290⟩ : Env).fontOk "missing.ttf" = false ∧
    (((generate_certificate (CertificateGenerator.init (.file 1200 800) "GDG Basra Event")
          ⟨fun _ => false, fun _ => 290⟩ ⟨2026, 1, 2, 3, 4, 5, 6⟩ ⟨2026, 1, 2, 3, 4, 5, 7⟩
          "Alice" (600, 400) "missing.ttf" 48 (0, 0, 0) none none 150).2.1.texts).map
        TextCall.font = [FontHandle.defaultFont, FontHandle.defaultFont] ∧
      (generate_certificate (CertificateGenerator.init (.file 1200 800) "GDG Basra Event")
          ⟨fun _ => false, fun _ => 290⟩ ⟨2026, 1, 2, 3, 4, 5, 6⟩ ⟨2026, 1, 2, 3, 4, 5, 7⟩
          "Alice" (600, 400) "missing.ttf" 48 (0, 0, 0) none none 150).2.2 =
        generate_hash "GDG Basra Event" "Alice" ⟨2026, 1, 2, 3, 4, 5, 6⟩ ∧
      (generate_certificate (CertificateGenerator.init (.file 1200 800) "GDG Basra Event")
          ⟨fun _ => false, fun _ => 290⟩ ⟨2026, 1, 2, 3, 4, 5, 6⟩ ⟨2026, 1, 2, 3, 4, 5, 7⟩
          "Alice" (600, 400) "missing.ttf" 48 (0, 0, 0) none none 150).2.1.width =
        (Img.file 1200 800).width ∧
      (generate_certificate (CertificateGenerator.init (.file 1200 800) "GDG Basra Event")
          ⟨fun _ => false, fun _ => 290⟩ ⟨2026, 1, 2, 3, 4, 5, 6⟩ ⟨2026, 1, 2, 3, 4, 5, 7⟩
          "Alice" (600, 400) "missing.ttf" 48 (0, 0, 0) none none 150).2.1.height =
        (Img.file 1200 800).height ∧
      ((generate_certificate (CertificateGenerator.init (.file 1200 800) "GDG Basra Event")
          ⟨fun _ => false, fun _ => 290⟩ ⟨2026, 1, 2, 3, 4, 5, 6⟩ ⟨2026, 1, 2, 3, 4, 5, 7⟩
          "Alice" (600, 400) "missing.ttf" 48 (0, 0, 0) none none 150).2.1.pastes).length =
        1) :=
  ⟨rfl,
   font_fallback_non_fatal (CertificateGenerator.init (.file 1200 800) "GDG Basra Event")
     ⟨fun _ => false, fun _ => 290⟩ ⟨2026, 1, 2, 3, 4, 5, 6⟩ ⟨2026, 1, 2, 3, 4, 5, 7⟩
     "Alice" (600, 400) "missing.ttf" 48 (0, 0, 0) none none 150 rfl⟩

/-- C9: the batch returns exactly one `{name, hash, path}` record per input
attendee, appended in input order with the names verbatim; the empty attendee
list yields the empty result sequence and performs no file write. -/
theorem batch_results_one_per_attendee_in_order (g : CertificateGenerator)
    (env : Env) (clock : Nat → PyDateTime × PyDateTime) (attendees : List String)
    (dir : String) (np : Int × Int) (fp : String) (fs : Nat)
    (color : Nat × Nat × Nat) (hp qp : Option (Int × Int)) (qs : Nat) (sp : Bool) :
    ((batch_generate g env clock attendees dir np fp fs color hp qp qs sp).2).map
        BatchRecord.name = attendees ∧
    ((batch_generate g env clock attendees dir np fp fs color hp qp qs sp).2).length =
      attendees.length ∧
    batch_generate g env clock [] dir np fp fs color hp qp qs sp =
      ([FSOp.makedirs dir true], []) := by
  refine ⟨?_, ?_, ?_⟩
  · simp [batch_generate, batchLoop_map_name]
  · have h := batchLoop_map_name g env clock dir np fp fs color hp qp qs sp attendees 0
    have := congrArg List.length h
    simpa [batch_generate] using this
  · simp [batch_generate, batchLoop]

/-- C10: `batch_generate` itself creates the output directory, with
intermediate directories and tolerating a pre-existing one
(`os.makedirs(output_dir, exist_ok=True)`), as its first filesystem effect,
before any attendee is processed — also on the empty attendee list. -/
theorem batch_creates_output_directory_first (g : CertificateGenerator)
    (env : Env) (clock : Nat → PyDateTime × PyDateTime) (attendees : List String)
    (dir : String) (np : Int × Int) (fp : String) (fs : Nat)
    (color : Nat × Nat × Nat) (hp qp : Option (Int × Int)) (qs : Nat) (sp : Bool) :
    ((batch_generate g env clock attendees dir np fp fs color hp qp qs sp).1).head? =
      some (FSOp.makedirs dir true) ∧
    ((batch_generate g env clock attendees dir np fp fs color hp qp qs sp).1).tail.all
      FSOp.isWrite = true := by
  refine ⟨rfl, ?_⟩
  simpa [batch_generate] using
    batchLoop_ops_write g env clock dir np fp fs color hp qp qs sp attendees 0


